import Mathlib

/-!
Shallow embedding of the quiz application core: the question data model and
loaders of quiz_manager.py, the explanation resolution and caching of
explanation_translator.py, and the quiz-session state machine driven by
main.py (web UI) with its CLI twin quiz_cli.py.

Python strings are modelled as Lean String, optional fields as Option String
(Python None becomes none), Python truthiness of an optional string field
(None and "" are falsy) by the predicate truthy below.  Real-number division
used for accuracy percentages is modelled over the rationals.
-/

namespace EnglishQuizes

/-- Python truthiness of an optional string: None and "" are falsy. -/
def truthy (o : Option String) : Bool :=
  match o with
  | none => false
  | some s => !(s == "")

/-- The string value of an optional field, "" when absent
(models Python `x or ""` on a falsy default). -/
def orEmpty (o : Option String) : String := o.getD ""

/-- One quiz item, mirroring the pydantic model `Question` of quiz_manager.py.
`correct_answer` is a Nat because the schema constrains it with `ge=0`
(negative values are rejected before a Question object ever exists). -/
structure Question where
  id : Int
  topic : String
  difficulty : String
  question : String
  choices : List String
  correct_answer : Nat
  passage : Option String
  explanation : Option String
  explanation_zh_TW : Option String
  explanation_zh_CN : Option String
  tags : Option (List String)
deriving DecidableEq, Repr

/-- `Question.validate_correct_answer` of quiz_manager.py:
`0 <= correct_answer < len(choices)` (the lower bound is automatic here). -/
def Question.validate_correct_answer (q : Question) : Bool :=
  q.correct_answer < q.choices.length

/-- `Question.get_explanation` of quiz_manager.py: requested-language field,
then zh_TW falls back to zh_CN, then the default `explanation` field. -/
def Question.get_explanation (q : Question) (language : String) : String :=
  if language = "zh_TW" ∧ truthy q.explanation_zh_TW = true then
    orEmpty q.explanation_zh_TW
  else if language = "zh_CN" ∧ truthy q.explanation_zh_CN = true then
    orEmpty q.explanation_zh_CN
  else if language = "zh_TW" ∧ truthy q.explanation_zh_CN = true then
    orEmpty q.explanation_zh_CN
  else
    orEmpty q.explanation

/-- The pre-translated explanation field stored for exactly `language`
(`explanation_{language}` attribute probing: only the zh_TW and zh_CN
fields exist on a Question). -/
def exact_pretranslated (q : Question) (language : String) : Option String :=
  if language = "zh_TW" then q.explanation_zh_TW
  else if language = "zh_CN" then q.explanation_zh_CN
  else none

/-- First non-empty candidate wins; "" if every candidate is empty. -/
def firstNonEmpty : List (Option String) → String
  | [] => ""
  | o :: rest => if truthy o = true then orEmpty o else firstNonEmpty rest

/-- Modelled from the spec: the claimed fixed priority order, first non-empty
result winning — exact-language pre-translated explanation, then (only for a
zh_TW request) the zh_CN explanation, then the default `explanation` field. -/
def resolve_per_spec (q : Question) (language : String) : String :=
  firstNonEmpty [exact_pretranslated q language,
                 if language = "zh_TW" then q.explanation_zh_CN else none,
                 q.explanation]

/-- `ExplanationTranslator.get_explanation` of explanation_translator.py.
`translate` stands for the bound method `self.translate_text` (a String-valued
call); `googletrans_available` is the module-level availability flag.  The
attribute probe for `explanation_{language}` succeeds only for zh_TW / zh_CN,
and the alternative key `explanation_zh` never exists on a Question. -/
def translator_get_explanation (q : Question) (language : String)
    (googletrans_available : Bool) (translate : String → String → String) :
    String :=
  if truthy (exact_pretranslated q language) = true then
    orEmpty (exact_pretranslated q language)
  else if language = "zh_TW" ∧ truthy q.explanation_zh_CN = true then
    orEmpty q.explanation_zh_CN
  else
    let original := orEmpty q.explanation
    if original = "" then ""
    else if language ≠ "en" ∧ googletrans_available = true then
      translate original language
    else original

/-- Quiz metadata, mirroring `QuizMetadata` of quiz_manager.py. -/
structure QuizMetadata where
  title : String
  version : String
  created_date : String
  total_questions : Nat
  description : Option String
deriving DecidableEq, Repr

/-- A complete quiz, mirroring `Quiz` of quiz_manager.py. -/
structure Quiz where
  quiz_metadata : QuizMetadata
  questions : List Question
deriving DecidableEq, Repr

/-- `Quiz.validate_all_questions` of quiz_manager.py. -/
def Quiz.validate_all_questions (quiz : Quiz) : Bool :=
  quiz.questions.all (fun q => q.validate_correct_answer)

/-- The validation pass of `QuizManager.load_questions_by_topic`
(quiz_manager.py lines 130-138), applied to the parsed question list: the
loop raises a ValueError naming the id of the first invalid question, and
only when every question validates is the list returned. -/
def load_questions_by_topic_validate (questions : List Question) :
    Except String (List Question) :=
  match questions.find? (fun q => !q.validate_correct_answer) with
  | some q =>
      Except.error ("Invalid correct_answer in question ID " ++ toString q.id)
  | none => Except.ok questions

/-- The validation pass of the legacy single-file branch of
`QuizManager.load_quiz_from_file` (quiz_manager.py lines 193-210), applied to
the parsed Quiz object: the ValueError raised when `validate_all_questions`
fails is re-caught by the surrounding generic handler and re-wrapped, so the
surfaced message is fixed and names no question. -/
def load_quiz_from_file_model (quiz : Quiz) : Except String Quiz :=
  if quiz.validate_all_questions = true then Except.ok quiz
  else
    Except.error
      "Error creating quiz object: Some questions have invalid correct_answer indices"

/-- Whether `pat` occurs as a contiguous substring of `hay`
(helper for stating which error messages mention an id). -/
def containsSub (hay pat : List Char) : Bool :=
  match hay with
  | [] => pat.isEmpty
  | _ :: t => pat.isPrefixOf hay || containsSub t pat

/-- A Python value as stored in the dict returned by `get_quiz_stats`. -/
inductive PyVal where
  | str (s : String)
  | int (n : Nat)
  | dict (entries : List (String × PyVal))

/-- `d[k] = d.get(k, 0) + 1` over an insertion-ordered association list:
first-seen keys keep their position, new keys are appended. -/
def bumpCount (m : List (String × Nat)) (k : String) : List (String × Nat) :=
  match m with
  | [] => [(k, 1)]
  | (k', v) :: rest =>
      if k' = k then (k', v + 1) :: rest else (k', v) :: bumpCount rest k

/-- `QuizManager.get_quiz_stats` of quiz_manager.py: an error dict when no
quiz is loaded, otherwise totals plus per-topic and per-difficulty counts in
first-seen order. -/
def get_quiz_stats (current_quiz : Option Quiz) : List (String × PyVal) :=
  match current_quiz with
  | none => [("error", PyVal.str "No quiz loaded")]
  | some quiz =>
      let topics :=
        quiz.questions.foldl (fun m q => bumpCount m q.topic) []
      let difficulties :=
        quiz.questions.foldl (fun m q => bumpCount m q.difficulty) []
      [("total_questions", PyVal.int quiz.questions.length),
       ("topics", PyVal.dict (topics.map (fun p => (p.1, PyVal.int p.2)))),
       ("difficulties",
         PyVal.dict (difficulties.map (fun p => (p.1, PyVal.int p.2)))),
       ("title", PyVal.str quiz.quiz_metadata.title)]

/-- The `lang_map` dictionary of `ExplanationTranslator.translate_text`:
language codes accepted by the app mapped to Google Translate codes. -/
def lang_map (target_language : String) : Option String :=
  if target_language = "zh_TW" then some "zh-tw"
  else if target_language = "zh_CN" then some "zh-cn"
  else if target_language = "zh" then some "zh-tw"
  else if target_language = "en" then some "en"
  else none

/-- `ExplanationTranslator.translate_text` of explanation_translator.py with
the instance state made explicit: `hasTranslator` is `self.translator is not
None` (fixed for the instance's lifetime), `net t l` models
`self.translator.translate(t, dest=l).text` (`none` when the call raises),
and `cache` is `self._translation_cache` threaded through the call; the
result is the returned string and the updated cache.  The `functools.
lru_cache` layer additionally memoizes whole calls per identical argument
tuple; it repeats earlier results verbatim and is not modelled.  Note the
cache key is the single string `text ++ "_" ++ target_language`, looked up
before the target language is mapped or checked for support. -/
def translate_text (hasTranslator : Bool)
    (net : String → String → Option String)
    (cache : List (String × String)) (text target_language : String) :
    String × List (String × String) :=
  if !hasTranslator || text == "" then (text, cache)
  else
    let cache_key := text ++ "_" ++ target_language
    match cache.lookup cache_key with
    | some v => (v, cache)
    | none =>
      match lang_map target_language with
      | none => (text, cache)
      | some target_lang =>
        if target_lang = "en" then (text, cache)
        else if target_lang ≠ "zh-tw" ∧ target_lang ≠ "zh-cn" then
          (text, cache)
        else
          match net text target_lang with
          | some translated => (translated, cache ++ [(cache_key, translated)])
          | none => (text, cache)

/-- Case-insensitive prefix test on character lists (ASCII case folding,
matching `re.IGNORECASE` on the ASCII terms used below). -/
def isPrefixCI : List Char → List Char → Bool
  | [], _ => true
  | _ :: _, [] => false
  | p :: ps, h :: hs => (p.toLower == h.toLower) && isPrefixCI ps hs

/-- Left-to-right, non-overlapping, case-insensitive replacement of every
occurrence of `pat` by `rep`, as `re.sub` with an escaped (literal) pattern
and `re.IGNORECASE` performs it.  The terms the source substitutes are all
non-empty, so the behaviour on an empty `pat` is irrelevant here. -/
def replaceCI (pat rep : List Char) : List Char → List Char
  | [] => []
  | h :: t =>
    if 0 < pat.length ∧ isPrefixCI pat (h :: t) = true then
      rep ++ replaceCI pat rep (t.drop (pat.length - 1))
    else h :: replaceCI pat rep t
termination_by l => l.length
decreasing_by
  · simp only [List.length_drop, List.length_cons]
    omega
  · simp only [List.length_cons]
    omega

/-- The `EDUCATIONAL_TERMS` dictionary of explanation_translator.py, in
insertion order. -/
def EDUCATIONAL_TERMS : List (String × List (String × String)) :=
  [("en",
    [("grammar", "grammar"),
     ("spelling", "spelling"),
     ("subject-verb agreement", "subject-verb agreement"),
     ("pronoun", "pronoun"),
     ("adjective", "adjective"),
     ("correct", "correct"),
     ("incorrect", "incorrect")]),
   ("zh_TW",
    [("grammar", "語法"),
     ("spelling", "拼字"),
     ("subject-verb agreement", "主詞動詞一致性"),
     ("pronoun", "代名詞"),
     ("adjective", "形容詞"),
     ("correct", "正確"),
     ("incorrect", "錯誤")])]

/-- `enhance_explanation_with_terms` of explanation_translator.py: languages
with no entry in the dictionary pass through untouched; for a listed
language the terms are substituted in order, but only when the language is
not "en". -/
def enhance_explanation_with_terms (explanation language : String) : String :=
  match EDUCATIONAL_TERMS.lookup language with
  | none => explanation
  | some terms =>
      terms.foldl
        (fun enhanced p =>
          if language ≠ "en" then
            String.mk (replaceCI p.1.toList p.2.toList enhanced.toList)
          else enhanced)
        explanation

/-- The quiz-session counters and answer log kept in Streamlit session state
by main.py: `current_question_index`, `score`, `answered_questions`, and
`quiz_answers` (position of the question, chosen option string). -/
structure SessionState where
  index : Nat
  score : Nat
  answered : Nat
  answers : List (Nat × String)
deriving DecidableEq, Repr

/-- Dict assignment `m[k] = v`: overwrite an existing key in place, append a
new one. -/
def setAnswer (m : List (Nat × String)) (k : Nat) (v : String) :
    List (Nat × String) :=
  match m with
  | [] => [(k, v)]
  | (k', v') :: rest =>
      if k' = k then (k, v) :: rest else (k', v') :: setAnswer rest k v

/-- The effect of the submit branch of `show_quiz_screen` (main.py lines
451-477) on the session counters, given the current question `q` and the
chosen option string `c`: correctness is the string comparison
`user_answer == options[question.correct_answer]`, the score and answered
counters grow, the answer is logged at the current position, and the index
advances exactly when a further question remains. -/
def submitUpdate (qs : List Question) (s : SessionState) (q : Question)
    (c : String) : SessionState :=
  { index := if s.index + 1 < qs.length then s.index + 1 else s.index
    score :=
      if q.choices.get? q.correct_answer = some c then s.score + 1
      else s.score
    answered := s.answered + 1
    answers := setAnswer s.answers s.index c }

/-- The session transitions of main.py over a fixed shuffled question list
`qs`: submitting an answer (only possible while the current index addresses a
question and the chosen string is one of its options — the web form offers
exactly those), quitting (the Quit button leaves every counter untouched),
and restarting from the results screen (all counters reset, answer log
cleared).  Advancing is not a separate transition: the submit handler itself
moves the index. -/
inductive Step (qs : List Question) : SessionState → SessionState → Prop where
  | submit (s : SessionState) (q : Question) (c : String)
      (hq : qs.get? s.index = some q) (hc : c ∈ q.choices) :
      Step qs s (submitUpdate qs s q c)
  | quit (s : SessionState) : Step qs s s
  | restart (s : SessionState) : Step qs s ⟨0, 0, 0, []⟩

/-- States reachable from a freshly started session
(`start_quiz_mode` resets all counters to zero). -/
def Reachable (qs : List Question) (s : SessionState) : Prop :=
  Relation.ReflTransGen (Step qs) ⟨0, 0, 0, []⟩ s

/-- `start_quiz_mode` of main.py, with the nondeterministic
`random.shuffle` modelled by an explicit permutation-producing function
`shuffle`.  The result is `none` when the mode's selection is empty (the
code shows an error and starts nothing), otherwise the pair of the session's
question list `st.session_state.quiz_questions` and the collection's
`current_quiz.questions` as it stands after the call.  In topic and
difficulty mode the selection is a fresh filtered list, so the collection is
untouched; in full-quiz mode `random.shuffle` is applied to
`current_quiz.questions` itself and the session aliases that same list. -/
def start_quiz_mode (mode : String) (quizQuestions : List Question)
    (selectedTopic selectedDifficulty : Option String)
    (shuffle : List Question → List Question) :
    Option (List Question × List Question) :=
  if mode = "topic" ∧ truthy selectedTopic = true then
    let t := orEmpty selectedTopic
    let qs := quizQuestions.filter (fun q => q.topic.toLower == t.toLower)
    if qs.isEmpty then none else some (shuffle qs, quizQuestions)
  else if mode = "difficulty" ∧ truthy selectedDifficulty = true then
    let d := orEmpty selectedDifficulty
    let qs :=
      quizQuestions.filter (fun q => q.difficulty.toLower == d.toLower)
    if qs.isEmpty then none else some (shuffle qs, quizQuestions)
  else
    if quizQuestions.isEmpty then none
    else some (shuffle quizQuestions, shuffle quizQuestions)

/-- `QuizCLI.start_quiz` of quiz_cli.py shuffles
`self.current_quiz.questions.copy()`: the session order and the collection's
list after the call (which the copy leaves unchanged). -/
def cli_start_quiz_questions (quizQuestions : List Question)
    (shuffle : List Question → List Question) :
    List Question × List Question :=
  (shuffle quizQuestions, quizQuestions)

/-- The accuracy metric of `show_quiz_screen` (main.py lines 404-405):
`score / answered_questions * 100` guarded by `answered_questions > 0`,
else 0. -/
def accuracy (score answered : Nat) : ℚ :=
  if 0 < answered then (score : ℚ) / (answered : ℚ) * 100 else 0

/-- The percentage of `QuizCLI._display_quiz_results` (quiz_cli.py lines
242-246): computed only when at least one question was attempted, otherwise
no percentage exists (the code prints a no-data message instead). -/
def cli_percentage (score attempted : Nat) : Option ℚ :=
  if 0 < attempted then some ((score : ℚ) / (attempted : ℚ) * 100) else none

/-- A sample two-choice question used as concrete input below. -/
def sampleQA : Question :=
  { id := 1, topic := "Grammar", difficulty := "easy",
    question := "Pick one", choices := ["alpha", "beta"],
    correct_answer := 0, passage := none,
    explanation := some "because alpha",
    explanation_zh_TW := none, explanation_zh_CN := none, tags := none }

/-- A second sample question. -/
def sampleQB : Question :=
  { id := 2, topic := "Spelling", difficulty := "hard",
    question := "Pick again", choices := ["gamma", "delta"],
    correct_answer := 1, passage := none,
    explanation := some "because delta",
    explanation_zh_TW := none, explanation_zh_CN := none, tags := none }

/-- A question whose correct_answer index is out of range (id 7). -/
def badQ : Question :=
  { id := 7, topic := "Grammar", difficulty := "easy",
    question := "Broken", choices := ["a", "b"],
    correct_answer := 5, passage := none, explanation := none,
    explanation_zh_TW := none, explanation_zh_CN := none, tags := none }

/-- A quiz containing only the invalid question `badQ`. -/
def badQuiz : Quiz :=
  { quiz_metadata :=
      { title := "Broken quiz", version := "1.0",
        created_date := "2025-06-15", total_questions := 1,
        description := none },
    questions := [badQ] }

/-- A question carrying both Chinese explanation fields. -/
def sampleQzh : Question :=
  { id := 3, topic := "Grammar", difficulty := "medium",
    question := "Chinese", choices := ["x", "y"],
    correct_answer := 0, passage := none,
    explanation := some "english text",
    explanation_zh_TW := some "繁體說明",
    explanation_zh_CN := some "简体说明", tags := none }

/-- A missing optional field is falsy. -/
theorem truthy_none : truthy none = false := rfl

/-- An optional field that is falsy in Python contributes "". -/
theorem orEmpty_of_truthy_false {o : Option String} (h : truthy o = false) :
    orEmpty o = "" := by
  cases o with
  | none => rfl
  | some s =>
    simp only [truthy, Bool.not_eq_false', beq_iff_eq] at h
    simp [orEmpty, h]

/-- C1: for every Question and target language, explanation resolution
follows the fixed priority order with the first non-empty result winning —
exact-language pre-translated explanation, then (for zh_TW requests only)
the zh_CN explanation, then the default `explanation` field
(`Question.get_explanation` equals the spec-modelled resolver), and the
fallback is one-directional: a zh_CN request never depends on the zh_TW
field, in `Question.get_explanation` and in
`ExplanationTranslator.get_explanation` alike; the translator variant obeys
the same first two priorities. -/
theorem c1_explanation_priority (q : Question) (language : String)
    (tw : Option String) (avail : Bool) (tr : String → String → String) :
    q.get_explanation language = resolve_per_spec q language ∧
    Question.get_explanation { q with explanation_zh_TW := tw } "zh_CN"
      = q.get_explanation "zh_CN" ∧
    translator_get_explanation { q with explanation_zh_TW := tw } "zh_CN"
        avail tr
      = translator_get_explanation q "zh_CN" avail tr ∧
    (truthy q.explanation_zh_TW = true →
      translator_get_explanation q "zh_TW" avail tr
        = orEmpty q.explanation_zh_TW) ∧
    (truthy q.explanation_zh_CN = true →
      translator_get_explanation q "zh_CN" avail tr
        = orEmpty q.explanation_zh_CN) ∧
    (truthy q.explanation_zh_TW = false → truthy q.explanation_zh_CN = true →
      translator_get_explanation q "zh_TW" avail tr
        = orEmpty q.explanation_zh_CN) := by
  refine ⟨?_, ?_, ?_, ?_, ?_, ?_⟩
  · by_cases h1 : language = "zh_TW" <;> by_cases h2 : language = "zh_CN" <;>
      simp_all [Question.get_explanation, resolve_per_spec,
        exact_pretranslated, firstNonEmpty] <;>
      split_ifs <;> simp_all [truthy_none, orEmpty_of_truthy_false]
  · simp [Question.get_explanation]
  · simp [translator_get_explanation, exact_pretranslated]
  · intro h
    simp [translator_get_explanation, exact_pretranslated, h]
  · intro h
    simp [translator_get_explanation, exact_pretranslated, h]
  · intro h1 h2
    simp [translator_get_explanation, exact_pretranslated, h1, h2]

/-- Witness for C1 at a concrete question: the zh_TW field wins for a zh_TW
request. -/
theorem c1_explanation_priority_witness :
    truthy sampleQzh.explanation_zh_TW = true ∧
    translator_get_explanation sampleQzh "zh_TW" false (fun t _ => t)
      = "繁體說明" := by
  refine ⟨by decide, ?_⟩
  exact (c1_explanation_priority sampleQzh "zh_TW" none false
    (fun t _ => t)).2.2.2.1 (by decide)

/-- In every reachable session state the score is bounded by the answered
count (this link of the claimed chain does hold). -/
theorem reachable_score_le_answered {qs : List Question} {s : SessionState}
    (h : Reachable qs s) : s.score ≤ s.answered := by
  induction h with
  | refl => exact Nat.le_refl 0
  | tail _ hstep ih =>
    cases hstep with
    | submit q c' hq hc =>
      simp only [submitUpdate]
      split_ifs <;> omega
    | quit => exact ih
    | restart => exact Nat.le_refl 0

/-- In every reachable session state the index is bounded by the question
count (this link of the claimed chain does hold as well). -/
theorem reachable_index_le_length {qs : List Question} {s : SessionState}
    (h : Reachable qs s) : s.index ≤ qs.length := by
  induction h with
  | refl => exact Nat.zero_le _
  | tail _ hstep ih =>
    cases hstep with
    | submit q c' hq hc =>
      simp only [submitUpdate]
      split_ifs <;> omega
    | quit => exact ih
    | restart => exact Nat.zero_le _

/-- C2: the claimed chain `score <= answeredCount <= currentIndex+1 <=
length` is violated in a reachable state.  After the final question of a
one-question session is answered, the submit handler neither advances the
index past the last position nor blocks resubmission, so a second submission
of the same question is a legal transition and drives `answeredCount` to 2
while `currentIndex + 1` stays 1. -/
theorem c2_invariant_violated :
    Reachable [sampleQA] ⟨0, 2, 2, [(0, "alpha")]⟩ ∧
    (⟨0, 2, 2, [(0, "alpha")]⟩ : SessionState).index + 1
      < (⟨0, 2, 2, [(0, "alpha")]⟩ : SessionState).answered := by
  have e1 : submitUpdate [sampleQA] ⟨0, 0, 0, []⟩ sampleQA "alpha"
      = ⟨0, 1, 1, [(0, "alpha")]⟩ := by decide
  have e2 : submitUpdate [sampleQA] ⟨0, 1, 1, [(0, "alpha")]⟩ sampleQA "alpha"
      = ⟨0, 2, 2, [(0, "alpha")]⟩ := by decide
  constructor
  · have h1 : Step [sampleQA] ⟨0, 0, 0, []⟩ ⟨0, 1, 1, [(0, "alpha")]⟩ :=
      e1 ▸ Step.submit ⟨0, 0, 0, []⟩ sampleQA "alpha" rfl (by decide)
    have h2 : Step [sampleQA] ⟨0, 1, 1, [(0, "alpha")]⟩
        ⟨0, 2, 2, [(0, "alpha")]⟩ :=
      e2 ▸ Step.submit ⟨0, 1, 1, [(0, "alpha")]⟩ sampleQA "alpha" rfl
        (by decide)
    exact Relation.ReflTransGen.tail
      (Relation.ReflTransGen.tail Relation.ReflTransGen.refl h1) h2
  · decide

/-- C3 counterexample: at position 0 of a two-question session, submitting
a valid choice changes `currentIndex` (the claim says submit leaves it
unchanged). -/
theorem c3_submit_advances_counterexample :
    [sampleQA, sampleQB].get? 0 = some sampleQA ∧
    "alpha" ∈ sampleQA.choices ∧
    ((submitUpdate [sampleQA, sampleQB] ⟨0, 0, 0, []⟩ sampleQA "alpha").index
      == (⟨0, 0, 0, []⟩ : SessionState).index) = false := by decide

/-- C3 amended: for every active session and valid choice, submit records
the answer at the current position and updates score and answered count, and
it also advances `currentIndex` itself exactly when a further question
remains — advancing is not a separate operation in this implementation. -/
theorem c3_submit_effect (qs : List Question) (s : SessionState)
    (q : Question) (c : String) (hq : qs.get? s.index = some q)
    (hc : c ∈ q.choices) :
    (submitUpdate qs s q c).answered = s.answered + 1 ∧
    (submitUpdate qs s q c).answers = setAnswer s.answers s.index c ∧
    ((submitUpdate qs s q c).score = s.score + 1 ↔
      q.choices.get? q.correct_answer = some c) ∧
    ((submitUpdate qs s q c).index = s.index + 1 ↔
      s.index + 1 < qs.length) ∧
    ((submitUpdate qs s q c).index = s.index ↔
      ¬ s.index + 1 < qs.length) := by
  refine ⟨rfl, rfl, ?_, ?_, ?_⟩
  · simp only [submitUpdate]
    split_ifs with h
    · exact iff_of_true rfl h
    · exact iff_of_false (by omega) h
  · simp only [submitUpdate]
    split_ifs with h <;> omega
  · simp only [submitUpdate]
    split_ifs with h <;> omega

/-- Witness for C3's amended theorem at a concrete session: the submit at
position 0 of a two-question list counts the answer and advances. -/
theorem c3_submit_effect_witness :
    (submitUpdate [sampleQA, sampleQB] ⟨0, 0, 0, []⟩ sampleQA "alpha").answered
      = (⟨0, 0, 0, []⟩ : SessionState).answered + 1 ∧
    ((submitUpdate [sampleQA, sampleQB] ⟨0, 0, 0, []⟩ sampleQA "alpha").index
        = (⟨0, 0, 0, []⟩ : SessionState).index + 1 ↔
      (⟨0, 0, 0, []⟩ : SessionState).index + 1
        < [sampleQA, sampleQB].length) :=
  ⟨(c3_submit_effect [sampleQA, sampleQB] ⟨0, 0, 0, []⟩ sampleQA "alpha" rfl
      (by decide)).1,
   (c3_submit_effect [sampleQA, sampleQB] ⟨0, 0, 0, []⟩ sampleQA "alpha" rfl
      (by decide)).2.2.2.1⟩

/-- C4 counterexample: the legacy single-file load path rejects a quiz whose
only question (id 7) has an out-of-range correct_answer, but with a fixed
generic message in which the offending question's id does not occur — the
claimed "error naming the offending question" fails on this path. -/
theorem c4_legacy_error_counterexample :
    badQ ∈ badQuiz.questions ∧ badQ.validate_correct_answer = false ∧
    load_quiz_from_file_model badQuiz =
      Except.error
        "Error creating quiz object: Some questions have invalid correct_answer indices" ∧
    containsSub
      "Error creating quiz object: Some questions have invalid correct_answer indices".toList
      (toString badQ.id).toList = false := by
  refine ⟨by decide, by decide, rfl, by decide⟩

/-- C4 amended: loading fails whenever some question's correct_answer is out
of `[0, len(choices))` and no question list or quiz is ever returned; the
topic-based loader's error names the id of an offending question, while the
legacy single-file loader reports a fixed generic message. -/
theorem c4_load_validation (qs : List Question) (q : Question) (quiz : Quiz)
    (hmem : q ∈ qs) (hbad : q.validate_correct_answer = false)
    (hqb : quiz.validate_all_questions = false) :
    (∃ qbad, qbad ∈ qs ∧ qbad.validate_correct_answer = false ∧
      load_questions_by_topic_validate qs =
        Except.error
          ("Invalid correct_answer in question ID " ++ toString qbad.id)) ∧
    (∀ res, load_questions_by_topic_validate qs ≠ Except.ok res) ∧
    load_quiz_from_file_model quiz =
      Except.error
        "Error creating quiz object: Some questions have invalid correct_answer indices" ∧
    (∀ res, load_quiz_from_file_model quiz ≠ Except.ok res) := by
  have hfind : (qs.find? (fun q => !q.validate_correct_answer)).isSome := by
    rw [List.find?_isSome]
    exact ⟨q, hmem, by simp [hbad]⟩
  obtain ⟨qbad, hq⟩ := Option.isSome_iff_exists.mp hfind
  have hpred : qbad.validate_correct_answer = false := by
    simpa using List.find?_some hq
  have hmem' : qbad ∈ qs := List.mem_of_find?_eq_some hq
  refine ⟨⟨qbad, hmem', hpred, ?_⟩, ?_, ?_, ?_⟩
  · simp [load_questions_by_topic_validate, hq]
  · intro res hres
    simp [load_questions_by_topic_validate, hq] at hres
  · simp [load_quiz_from_file_model, hqb]
  · intro res hres
    simp [load_quiz_from_file_model, hqb] at hres

/-- Witness for C4's amended theorem at the concrete broken quiz. -/
theorem c4_load_validation_witness :
    load_quiz_from_file_model badQuiz =
      Except.error
        "Error creating quiz object: Some questions have invalid correct_answer indices" :=
  (c4_load_validation [badQ] badQ badQuiz (by decide) (by decide)
    (by decide)).2.2.1

/-- A translation backend that always succeeds with "XLAT". -/
def netConst : String → String → Option String := fun _ _ => some "XLAT"

/-- C5: violated by a cache-key collision.  `lang_map "TW" = none`, so by the
claim a call with target language "TW" (an unsupported target, hence a
failing translation) must return its input unchanged; but after a successful
call for ("foo", "zh_TW") stored the key "foo_zh_TW", the call for
("foo_zh", "TW") builds the same key, hits the cache before the support
check, and returns the other pair's translation instead of "foo_zh". -/
theorem c5_failure_fallback_violated :
    translate_text true netConst [] "foo" "zh_TW"
      = ("XLAT", [("foo_zh_TW", "XLAT")]) ∧
    lang_map "TW" = none ∧
    (translate_text true netConst [("foo_zh_TW", "XLAT")] "foo_zh" "TW").1
      = "XLAT" ∧
    ("XLAT" == "foo_zh") = false := by decide

/-- A translation backend that always succeeds with "YY". -/
def netWord : String → String → Option String := fun _ _ => some "YY"

/-- C8: violated.  The pairs ("cat", "zh_TW") and ("cat_zh", "TW") are
distinct, yet the second call observes the cache entry stored by the first
(both concatenate to the key "cat_zh_TW"), returning "YY" where the uncached
operation returns "cat_zh" — cached and uncached translate differ. -/
theorem c8_cache_key_collision :
    ((("cat", "zh_TW") : String × String) == ("cat_zh", "TW")) = false ∧
    translate_text true netWord [] "cat" "zh_TW"
      = ("YY", [("cat_zh_TW", "YY")]) ∧
    (translate_text true netWord [("cat_zh_TW", "YY")] "cat_zh" "TW").1
      = "YY" ∧
    (translate_text true netWord [] "cat_zh" "TW").1 = "cat_zh" := by decide

/-- C6: violated in full-quiz mode.  Starting a full quiz shuffles
`current_quiz.questions` itself: afterwards the collection's sequence equals
the shuffled order (here the reversal of a two-question list), not its
original order, and the session's list is that same sequence; the CLI path,
which shuffles a copy, leaves the collection unchanged. -/
theorem c6_full_mode_mutates :
    start_quiz_mode "full" [sampleQA, sampleQB] none none List.reverse
      = some ([sampleQB, sampleQA], [sampleQB, sampleQA]) ∧
    ([sampleQB, sampleQA] == [sampleQA, sampleQB]) = false ∧
    cli_start_quiz_questions [sampleQA, sampleQB] List.reverse
      = ([sampleQB, sampleQA], [sampleQA, sampleQB]) := by decide

/-- C7: the accuracy query equals score/answered as a percentage when the
answered count is positive and equals 0 when it is zero; the CLI computes
its percentage only when at least one question was attempted, so neither
path ever divides by zero. -/
theorem c7_accuracy_total (s a : Nat) :
    (0 < a → accuracy s a = (s : ℚ) / (a : ℚ) * 100) ∧
    (a = 0 → accuracy s a = 0) ∧
    (cli_percentage s a = none ↔ a = 0) ∧
    (0 < a → cli_percentage s a = some ((s : ℚ) / (a : ℚ) * 100)) := by
  refine ⟨fun h => by simp [accuracy, h], fun h => by simp [accuracy, h],
    ⟨?_, ?_⟩, fun h => by simp [cli_percentage, h]⟩
  · intro h
    by_contra ha
    have hpos : 0 < a := Nat.pos_of_ne_zero ha
    simp [cli_percentage, hpos] at h
  · intro h
    simp [cli_percentage, h]

/-- Witness for C7 at concrete counts: one of two answered gives 50%; zero
answered gives accuracy 0. -/
theorem c7_accuracy_total_witness :
    accuracy 1 2 = ((1 : Nat) : ℚ) / ((2 : Nat) : ℚ) * 100 ∧
    accuracy 3 0 = 0 :=
  ⟨(c7_accuracy_total 1 2).1 (by decide), (c7_accuracy_total 3 0).2.1 rfl⟩

/-- C9: enhancing an explanation is the identity for any language without an
entry in the terms dictionary (anything other than "en" and "zh_TW") and for
"en" itself. -/
theorem c9_enhance_identity (e language : String) :
    (language ≠ "en" → language ≠ "zh_TW" →
      enhance_explanation_with_terms e language = e) ∧
    enhance_explanation_with_terms e "en" = e := by
  constructor
  · intro h1 h2
    have e1 : (language == "en") = false := beq_eq_false_iff_ne.mpr h1
    have e2 : (language == "zh_TW") = false := beq_eq_false_iff_ne.mpr h2
    simp [enhance_explanation_with_terms, EDUCATIONAL_TERMS, List.lookup,
      e1, e2]
  · rfl

/-- Witness for C9 at a concrete explanation and an unlisted language. -/
theorem c9_enhance_identity_witness :
    enhance_explanation_with_terms "grammar matters" "fr" = "grammar matters" :=
  (c9_enhance_identity "grammar matters" "fr").1 (by decide) (by decide)

/-- C10: with no quiz loaded, `get_quiz_stats` returns the defined error
dict — a mapping carrying an "error" entry — rather than failing; the
operation is total on the optional current quiz. -/
theorem c10_stats_no_quiz :
    get_quiz_stats none = [("error", PyVal.str "No quiz loaded")] ∧
    ((get_quiz_stats none).lookup "error").isSome = true :=
  ⟨rfl, rfl⟩

end EnglishQuizes
